import Mathlib

/-
  Verification of the pymerang controller (srv6-sdn-authentication).

  Shallow embedding of:
  - `pymerang/pymerang_server.py` (PymerangController: register_device,
    update_mgmt_info, device_disconnected, exec_reconciliation,
    reconciliation_failed);
  - `pymerang/vxlan_utils.py` (TunnelVXLAN: create/destroy controller
    endpoint, get_device_mgmtip);
  - `pymerang/etherws_utils.py` (TunnelEtherWs: supported NAT types).

  External collaborators (the `srv6_sdn_controller_state` storage API, the
  northbound interface, OS-level network-object calls, the gRPC layer and
  the keep-alive probe loop) are modelled as explicit state passed through
  the functions plus an oracle record fixing the results the collaborators
  return during one call.  Python exceptions are modelled with `Except`.
-/

namespace Pymerang

/-- Status codes (`status_codes_pb2`): distinct numeric codes. -/
def STATUS_SUCCESS : Nat := 0

/-- Status code returned on failed authentication. -/
def STATUS_UNAUTHORIZED : Nat := 1

/-- Status code returned on internal errors. -/
def STATUS_INTERNAL_ERROR : Nat := 2

/-- Default VXLAN port (`pymerang_server.py` line 40). -/
def DEFAULT_VXLAN_PORT : Nat := 4789

/-- Ceiling on reconciliation failures (`pymerang_server.py` line 47). -/
def MAX_ALLOWED_RECONCILIATION_FAILURES : Nat := 10000000

/-- Device states (`srv6_sdn_controller_state.DeviceState`, per spec section 3). -/
inductive DeviceState where
  | unknown
  | registered
  | working
  | rebootRequired
  | rebooting
  | failure
deriving DecidableEq, Repr

/-- NAT classifications (the seven `pynat` constants, per spec section 4.2). -/
inductive NatType where
  | open_
  | fullCone
  | restrictedCone
  | restrictedPort
  | symmetric
  | udpFirewall
  | blocked
deriving DecidableEq, Repr

/-- All seven NAT classifications. -/
def allNatTypes : List NatType :=
  [.open_, .fullCone, .restrictedCone, .restrictedPort,
   .symmetric, .udpFirewall, .blocked]

/-- NAT types supported by the VXLAN tunnel mode
(`vxlan_utils.py` lines 118-123: OPEN, FULL_CONE, RESTRICTED_CONE,
RESTRICTED_PORT). -/
def vxlanSupportedNatTypes : List NatType :=
  [.open_, .fullCone, .restrictedCone, .restrictedPort]

/-- NAT types supported by the Ethernet-over-websocket tunnel mode
(`etherws_utils.py` lines 151-158: OPEN, FULL_CONE, RESTRICTED_CONE,
RESTRICTED_PORT, SYMMETRIC, UDP_FIREWALL). -/
def etherwsSupportedNatTypes : List NatType :=
  [.open_, .fullCone, .restrictedCone, .restrictedPort,
   .symmetric, .udpFirewall]

/-! ## Reconciliation (`PymerangController.reconciliation_failed`,
`PymerangController.exec_reconciliation`) -/

/-- Persisted per-device fields touched by the reconciliation path
(owned by the `srv6_sdn_controller_state` storage collaborator). -/
structure ReconDeviceState where
  deviceState : DeviceState
  reconFlag : Bool
  reconFailures : Nat
deriving DecidableEq, Repr

/-- Results returned by the external collaborators during one
reconciliation call: the two `change_device_state` storage writes inside
`reconciliation_failed`, the `can_reboot_device` policy read, the three
northbound step statuses (HTTP-style, success = 200), and the
`reset_reconciliation_failures` storage write. -/
structure ReconOracle where
  changeStateOk1 : Bool
  changeStateOk2 : Bool
  canReboot : Bool
  prepRes : Nat
  devRes : Nat
  overlayRes : Nat
  resetOk : Bool
deriving DecidableEq, Repr

/-- Embedding of `PymerangController.reconciliation_failed`
(`pymerang_server.py` lines 522-593).  The Python function returns
`STATUS_INTERNAL_ERROR` explicitly on storage errors and falls off the end
(returning `None`) otherwise; the return value is therefore an
`Option Nat`.  A failed `change_device_state` storage write leaves the
persisted state unchanged. -/
def reconciliation_failed (st : ReconDeviceState) (o : ReconOracle) :
    Option Nat × ReconDeviceState :=
  -- change_device_state(new_state=REBOOT_REQUIRED)
  if !o.changeStateOk1 then
    (some STATUS_INTERNAL_ERROR, st)
  else
    let st := { st with deviceState := .rebootRequired }
    -- failures = inc_and_get_reconciliation_failures(...)
    let failures := st.reconFailures + 1
    let st := { st with reconFailures := failures }
    if failures ≥ MAX_ALLOWED_RECONCILIATION_FAILURES then
      -- change_device_state(new_state=FAILURE)
      if !o.changeStateOk2 then
        (some STATUS_INTERNAL_ERROR, st)
      else
        (none, { st with deviceState := .failure })
    else
      -- can_reboot_device branch only logs, in both cases
      (none, st)

/-- The three northbound reconciliation steps, in the order
`exec_reconciliation` invokes them. -/
inductive ReconStep where
  | prep
  | dev
  | overlay
deriving DecidableEq, Repr

/-- Observable outcome of one `exec_reconciliation` call: the returned
status, the resulting persisted state, the northbound steps actually
invoked (in invocation order), and whether the registered rollback action
(`reconciliation_failed`) ran. -/
structure ReconResult where
  status : Nat
  state : ReconDeviceState
  steps : List ReconStep
  rollbackInvoked : Bool
deriving DecidableEq, Repr

/-- Embedding of `PymerangController.exec_reconciliation`
(`pymerang_server.py` lines 811-857).  `RollbackContext` (the external
`rollbackcontext` library) runs every rollback action still pending when
the `with` block is exited, so an early `return res` after a failed step
invokes the pushed `reconciliation_failed` action; `commitAll()` after the
three steps succeed discards it. -/
def exec_reconciliation (st : ReconDeviceState) (o : ReconOracle) :
    ReconResult :=
  if st.reconFlag then
    -- rollback.push(reconciliation_failed, ...)
    -- res = nb_interface_ref.prepare_db_for_device_reconciliation(...)
    if o.prepRes ≠ 200 then
      let st := (reconciliation_failed st o).2
      { status := o.prepRes, state := st, steps := [.prep],
        rollbackInvoked := true }
    else if o.devRes ≠ 200 then
      let st := (reconciliation_failed st o).2
      { status := o.devRes, state := st, steps := [.prep, .dev],
        rollbackInvoked := true }
    else if o.overlayRes ≠ 200 then
      let st := (reconciliation_failed st o).2
      { status := o.overlayRes, state := st,
        steps := [.prep, .dev, .overlay], rollbackInvoked := true }
    else
      -- set_device_reconciliation_flag(flag=False); rollback.commitAll()
      let st := { st with reconFlag := false }
      -- reset_reconciliation_failures(...)
      if !o.resetOk then
        { status := STATUS_INTERNAL_ERROR, state := st,
          steps := [.prep, .dev, .overlay], rollbackInvoked := false }
      else
        { status := STATUS_SUCCESS,
          state := { st with reconFailures := 0 },
          steps := [.prep, .dev, .overlay], rollbackInvoked := false }
  else
    -- flag unset: only reset the failures counter
    if !o.resetOk then
      { status := STATUS_INTERNAL_ERROR, state := st, steps := [],
        rollbackInvoked := false }
    else
      { status := STATUS_SUCCESS, state := { st with reconFailures := 0 },
        steps := [], rollbackInvoked := false }

/-! ## Device registration (`PymerangController.register_device`) -/

/-- A persisted device record as the storage collaborator keeps it: the
registration payload plus the reconciliation flag (spec section 3; only
the fields the registration path touches are modelled, the payload fields
standing for the whole record). -/
structure DeviceRecord where
  features : List (String × Nat)
  interfaces : List String
  mgmtip : String
  reconFlag : Bool
deriving DecidableEq, Repr

/-- Storage-owned device table, keyed by `(deviceid, tenantid)`. -/
structure RegState where
  devices : String × String → Option DeviceRecord

/-- Embedding of `srv6_sdn_controller_state.device_exists` (external
storage collaborator, spec section 6): whether a record is present. -/
def device_exists (st : RegState) (deviceid tenantid : String) : Bool :=
  (st.devices (deviceid, tenantid)).isSome

/-- Embedding of `srv6_sdn_controller_state.set_device_reconciliation_flag`
(external storage collaborator): updates only the flag of the addressed
record. -/
def set_device_reconciliation_flag (st : RegState)
    (deviceid tenantid : String) (flag : Bool) : RegState :=
  { st with
    devices := fun k =>
      if k = (deviceid, tenantid) then
        (st.devices k).map (fun r => { r with reconFlag := flag })
      else
        st.devices k }

/-- Embedding of `srv6_sdn_controller_state.register_device` (external
storage collaborator): creates the record from the registration payload,
with the reconciliation flag initially clear. -/
def storage_register_device (st : RegState) (deviceid tenantid : String)
    (features : List (String × Nat)) (interfaces : List String)
    (mgmtip : String) : RegState :=
  { st with
    devices := fun k =>
      if k = (deviceid, tenantid) then
        some { features := features, interfaces := interfaces,
               mgmtip := mgmtip, reconFlag := false }
      else
        st.devices k }

/-- Tenant configuration as read by `get_tenant_config`: the VXLAN port
entry may be absent, in which case `register_device` falls back to
DEFAULT_VXLAN_PORT. -/
structure TenantConfig where
  vxlanPort : Option Nat
deriving DecidableEq, Repr

/-- Results of the external collaborators during one `register_device`
call: `authenticate_device` (none = token rejected, otherwise the resolved
tenant id) and `get_tenant_config` (none = tenant configuration cannot be
read). -/
structure RegOracle where
  auth : Option String
  tenantConfig : Option TenantConfig
deriving DecidableEq, Repr

/-- Embedding of `PymerangController.register_device`
(`pymerang_server.py` lines 463-520).  Returns the Python triple
`(status, vxlan_port, tenantid)` together with the resulting storage
state. -/
def register_device (st : RegState) (o : RegOracle) (deviceid : String)
    (features : List (String × Nat)) (interfaces : List String)
    (mgmtip : String) : (Nat × Option Nat × Option String) × RegState :=
  match o.auth with
  | none => ((STATUS_UNAUTHORIZED, none, none), st)
  | some tenantid =>
    let st :=
      if device_exists st deviceid tenantid then
        -- already registered: only set the reconciliation flag
        set_device_reconciliation_flag st deviceid tenantid true
      else
        storage_register_device st deviceid tenantid features interfaces
          mgmtip
    match o.tenantConfig with
    | none => ((STATUS_INTERNAL_ERROR, none, none), st)
    | some config =>
      ((STATUS_SUCCESS, some (config.vxlanPort.getD DEFAULT_VXLAN_PORT),
        some tenantid), st)

/-! ## Management-info update (`PymerangController.update_mgmt_info`)
and disconnection (`PymerangController.device_disconnected`) -/

/-- Python exceptions surfacing from the controller methods (an unknown
key in a dict subscript, or deleting an absent dict key, raises
`KeyError`). -/
inductive PyErr where
  | keyError (key : String)
deriving DecidableEq, Repr

instance exceptDecidableEq {ε α : Type} [DecidableEq ε] [DecidableEq α] :
    DecidableEq (Except ε α) := fun a b =>
  match a, b with
  | .ok x, .ok y =>
    if h : x = y then .isTrue (by rw [h])
    else .isFalse (by intro hc; injection hc; contradiction)
  | .ok _, .error _ => .isFalse (by intro hc; injection hc)
  | .error _, .ok _ => .isFalse (by intro hc; injection hc)
  | .error x, .error y =>
    if h : x = y then .isTrue (by rw [h])
    else .isFalse (by intro hc; injection hc; contradiction)

/-- The slice of the stored management-info record the claims observe
(written by the storage collaborator's `update_mgmt_info`, cleared by
`clear_mgmt_info`). -/
structure MgmtRec where
  mgmtip : String
  tunnelName : String
deriving DecidableEq, Repr

/-- Controller-side state touched by `update_mgmt_info` and
`device_disconnected` for one device: the persisted tunnel mode,
connected flag, device state and management info (storage collaborator),
plus the in-memory `connected_devices` keep-alive session table
(key `tenantid/deviceid` → stop-event id), the set of stop events that
have been signalled (`Event.set()`), and a fresh-event counter. -/
structure UpdState where
  tunnelMode : Option String
  connected : Bool
  deviceState : DeviceState
  mgmtRecord : Option MgmtRec
  sessions : String → Option Nat
  signalled : Nat → Bool
  nextEvent : Nat

/-- Results the external collaborators return during one
`update_mgmt_info` call: the tunnel-mode registry
(`tunnel_state.tunnel_modes`, name → `require_keep_alive_messages`), the
statuses of `destroy_tunnel_controller_endpoint` and
`create_tunnel_controller_endpoint` with the four VTEP fields the create
call yields, the stored management IP read back from storage, and the
success of the three storage writes and the STAMP-node lookup. -/
structure UpdOracle where
  registry : String → Option Bool
  destroyRes : Nat
  createRes : Nat
  createMac : Option String
  createCtrlIp : Option String
  createDevIp : Option String
  createMask : Option Nat
  storedMgmtIp : Option String
  updateOk : Bool
  setConnectedOk : Bool
  stampNodePresent : Bool
  changeStateOk : Bool

/-- Externally visible actions `update_mgmt_info` and
`device_disconnected` perform, in program order. -/
inductive UpdAction where
  | destroyTunnel (mode : String)
  | setTunnelModeNone
  | createTunnel (mode : String)
  | signalStop (ev : Nat)
  | awaitTermination (ev : Nat)
  | registerSession (key : String) (ev : Nat)
  | startKeepAliveThread (ev : Nat)
  | storageUpdateMgmt
  | setConnectedFlag (b : Bool)
  | updateStampNode
  | changeDeviceState (s : DeviceState)
  | clearMgmtInfo
  | deleteSession (key : String)
deriving DecidableEq, Repr

/-- Whether an action touches the keep-alive session bookkeeping. -/
def isSessionAct : UpdAction → Bool
  | .signalStop _ => true
  | .awaitTermination _ => true
  | .registerSession _ _ => true
  | _ => false

/-- Whether an action is a wait for a session thread's termination. -/
def isAwaitAct : UpdAction → Bool
  | .awaitTermination _ => true
  | _ => false

/-- Whether an action is a controller-endpoint tunnel creation. -/
def isCreateAct : UpdAction → Bool
  | .createTunnel _ => true
  | _ => false

/-- Outcome of one `update_mgmt_info` call: the Python return value (the
5-tuple `(status, controller_vtep_mac, controller_vtep_ip,
device_vtep_ip, vtep_mask)`), or an uncaught exception; the resulting
state (mutations made before an exception persist); and the action
trace. -/
structure UpdResult where
  result :
    Except PyErr
      (Nat × Option String × Option String × Option String × Option Nat)
  state : UpdState
  trace : List UpdAction

/-- Whether an `update_mgmt_info` outcome is a normal return (no uncaught
exception). -/
def updReturned (r : Except PyErr
    (Nat × Option String × Option String × Option String × Option Nat)) :
    Bool :=
  match r with
  | .ok _ => true
  | .error _ => false

/-- Embedding of `PymerangController.update_mgmt_info`
(`pymerang_server.py` lines 596-736).  Control flow, faithful to the
source: destroy the old tunnel endpoint if a persisted tunnel mode
exists and clear the persisted mode (lines 612-627); look the requested
mode up in the registry — an unknown name raises `KeyError` (line 629);
create the controller endpoint, failure statuses returned verbatim with
`None` VTEP fields (lines 634-645); prefer the stored private management
IP, keeping the text before the first slash (lines 647-651); signal the
stop event of a prior keep-alive session under `tenantid/deviceid` if
one is registered, then register a fresh stop event under that key and
start the keep-alive thread when the mode requires it (lines 652-676);
write the management info, set the connected flag, update the STAMP node
if present, and move the device state to WORKING, each storage failure
returning INTERNAL_ERROR (lines 677-727). -/
def update_mgmt_info (st : UpdState) (o : UpdOracle)
    (deviceid tenantid mgmtip tunnel_name : String) : UpdResult :=
  let key := tenantid ++ "/" ++ deviceid
  let step1 : UpdResult ⊕ (UpdState × List UpdAction) :=
    match st.tunnelMode with
    | none => .inr (st, [])
    | some old =>
      match o.registry old with
      | none => .inl ⟨.error (.keyError old), st, []⟩
      | some _ =>
        if o.destroyRes ≠ STATUS_SUCCESS then
          .inl ⟨.ok (o.destroyRes, none, none, none, none), st,
            [.destroyTunnel old]⟩
        else
          .inr ({ st with tunnelMode := none },
            [.destroyTunnel old, .setTunnelModeNone])
  match step1 with
  | .inl r => r
  | .inr (st, tr) =>
    match o.registry tunnel_name with
    | none => ⟨.error (.keyError tunnel_name), st, tr⟩
    | some requiresKA =>
      let tr := tr ++ [.createTunnel tunnel_name]
      if o.createRes ≠ STATUS_SUCCESS then
        ⟨.ok (o.createRes, none, none, none, none), st, tr⟩
      else
        let _mgmtip :=
          match o.storedMgmtIp with
          | some s => (s.splitOn "/").headD s
          | none => mgmtip
        -- signal the prior session's stop event, if any (lines 656-657)
        let tr := tr ++
          (match st.sessions key with
           | some old => [UpdAction.signalStop old]
           | none => [])
        let st :=
          match st.sessions key with
          | some old =>
            { st with signalled := fun e =>
                if e = old then true else st.signalled e }
          | none => st
        -- register a fresh stop event under the key (lines 659-660)
        let ev := st.nextEvent
        let st := { st with
          nextEvent := ev + 1,
          sessions := fun k => if k = key then some ev else st.sessions k }
        let tr := tr ++ [.registerSession key ev]
        let tr :=
          if requiresKA then tr ++ [.startKeepAliveThread ev] else tr
        let tr := tr ++ [.storageUpdateMgmt]
        if !o.updateOk then
          ⟨.ok (STATUS_INTERNAL_ERROR, none, none, none, none), st, tr⟩
        else
          let st := { st with
            mgmtRecord := some ⟨_mgmtip, tunnel_name⟩,
            tunnelMode := some tunnel_name }
          let tr := tr ++ [.setConnectedFlag true]
          if !o.setConnectedOk then
            ⟨.ok (STATUS_INTERNAL_ERROR, none, none, none, none), st, tr⟩
          else
            let st := { st with connected := true }
            let tr :=
              if o.stampNodePresent then tr ++ [.updateStampNode] else tr
            let tr := tr ++ [.changeDeviceState .working]
            if !o.changeStateOk then
              ⟨.ok (STATUS_INTERNAL_ERROR, none, none, none, none), st, tr⟩
            else
              ⟨.ok (STATUS_SUCCESS, o.createMac, o.createCtrlIp,
                  o.createDevIp, o.createMask),
                { st with deviceState := .working }, tr⟩

/-- Results the external collaborators return during one
`device_disconnected` call. -/
structure DisOracle where
  devicePresent : Bool
  registry : String → Option Bool
  destroyRes : Nat
  setConnectedOk : Bool

/-- Outcome of one `device_disconnected` call: the returned status or an
uncaught exception, the resulting state, and the action trace. -/
structure DisResult where
  result : Except PyErr Nat
  state : UpdState
  trace : List UpdAction

/-- Embedding of `PymerangController.device_disconnected`
(`pymerang_server.py` lines 766-809): read the device, mark it not
connected, destroy the tunnel endpoint and clear the persisted tunnel
mode if one is set, clear the management info, then unconditionally
`del self.connected_devices[tenantid/deviceid]` — which raises `KeyError`
when no session entry exists under that key (lines 804-806). -/
def device_disconnected (st : UpdState) (o : DisOracle)
    (deviceid tenantid : String) : DisResult :=
  if !o.devicePresent then
    ⟨.ok STATUS_INTERNAL_ERROR, st, []⟩
  else if !o.setConnectedOk then
    ⟨.ok STATUS_INTERNAL_ERROR, st, [.setConnectedFlag false]⟩
  else
    let st := { st with connected := false }
    let tr := [UpdAction.setConnectedFlag false]
    let step : DisResult ⊕ (UpdState × List UpdAction) :=
      match st.tunnelMode with
      | none => .inr (st, tr)
      | some tm =>
        match o.registry tm with
        | none => .inl ⟨.error (.keyError tm), st, tr⟩
        | some _ =>
          if o.destroyRes ≠ STATUS_SUCCESS then
            .inl ⟨.ok o.destroyRes, st, tr ++ [.destroyTunnel tm]⟩
          else
            .inr ({ st with tunnelMode := none },
              tr ++ [.destroyTunnel tm, .setTunnelModeNone])
    match step with
    | .inl r => r
    | .inr (st, tr) =>
      let st := { st with mgmtRecord := none }
      let tr := tr ++ [.clearMgmtInfo]
      let key := tenantid ++ "/" ++ deviceid
      match st.sessions key with
      | none => ⟨.error (.keyError key), st, tr⟩
      | some _ =>
        ⟨.ok STATUS_SUCCESS,
          { st with sessions := fun k =>
              if k = key then none else st.sessions k },
          tr ++ [.deleteSession key]⟩

/-! ## VXLAN tunnel mode (`TunnelVXLAN`, `vxlan_utils.py`) -/

/-- An external address, abstracted: an IPv4 or IPv6 address index, or an
address of no valid family. -/
inductive IpAddr where
  | v4 (a : Nat)
  | v6 (a : Nat)
  | invalid
deriving DecidableEq, Repr

/-- Address families distinguished by the endpoint-creation code. -/
inductive AddrFamily where
  | inet
  | inet6
  | other
deriving DecidableEq, Repr

/-- Modelled from the spec: `tunnel_utils.getAddressFamily` is code of
this repository not under src/; it classifies an address string as
AF_INET, AF_INET6 or neither. -/
def getAddressFamily : IpAddr → AddrFamily
  | .v4 _ => .inet
  | .v6 _ => .inet6
  | .invalid => .other

/-- Slot index of the per-tenant address allocator: slot 0 is the
controller's own VTEP, otherwise the device id (spec section 3). -/
inductive SlotKey where
  | ctrl
  | dev (id : String)
deriving DecidableEq, Repr

/-- In-memory state of the `TunnelVXLAN` instance: the `initiated` tenant
set (`vxlan_utils.py` line 125) and, modelled from the spec (the
`tunnel_utils.TunnelMode` base class is not under src/), the per-tenant
`device_to_mgmt_ipv4` / `device_to_mgmt_ipv6` slot maps, the
`device_to_mac_addr` map, the per-tenant next-free-address counters of
the two address allocators, and the per-tenant count of live device
allocations (spec section 3: pools are reference-counted per tenant).
Addresses are abstracted as allocation indices paired with the mask. -/
structure VXState where
  initiated : List String
  mgmtV4 : String → SlotKey → Option (Nat × Nat)
  mgmtV6 : String → SlotKey → Option (Nat × Nat)
  macs : String → Option String
  nextV4 : String → Nat
  nextV6 : String → Nat
  allocCount : String → Nat

/-- Whether a slot belongs to a device (slot 0 is the controller). -/
def isDevSlot : SlotKey → Bool
  | .dev _ => true
  | .ctrl => false

/-- Modelled from the spec: `TunnelMode.get_new_mgmt_ipv4` (not under
src/).  Per spec section 4.3 the per-tenant IPv4 address allocator yields
the next unused host address, indexed by a stable per-device slot: an
already-assigned slot keeps its address, a fresh assignment takes the
next counter value.  The source returns the textual address/mask, which
callers split on the slash; embedded as the pair directly. -/
def get_new_mgmt_ipv4 (st : VXState) (slot : SlotKey)
    (tenantid : String) : (Nat × Nat) × VXState :=
  match st.mgmtV4 tenantid slot with
  | some a => (a, st)
  | none =>
    let a := (st.nextV4 tenantid, 16)
    (a,
      { st with
        mgmtV4 := fun tname s =>
          if tname = tenantid ∧ s = slot then some a
          else st.mgmtV4 tname s,
        nextV4 := fun tname =>
          if tname = tenantid then st.nextV4 tname + 1
          else st.nextV4 tname,
        allocCount := fun tname =>
          if tname = tenantid then
            (if isDevSlot slot then st.allocCount tname + 1
             else st.allocCount tname)
          else st.allocCount tname })

/-- Modelled from the spec: `TunnelMode.get_new_mgmt_ipv6` (not under
src/), the IPv6 counterpart of the per-tenant address allocator. -/
def get_new_mgmt_ipv6 (st : VXState) (slot : SlotKey)
    (tenantid : String) : (Nat × Nat) × VXState :=
  match st.mgmtV6 tenantid slot with
  | some a => (a, st)
  | none =>
    let a := (st.nextV6 tenantid, 64)
    (a,
      { st with
        mgmtV6 := fun tname s =>
          if tname = tenantid ∧ s = slot then some a
          else st.mgmtV6 tname s,
        nextV6 := fun tname =>
          if tname = tenantid then st.nextV6 tname + 1
          else st.nextV6 tname,
        allocCount := fun tname =>
          if tname = tenantid then
            (if isDevSlot slot then st.allocCount tname + 1
             else st.allocCount tname)
          else st.allocCount tname })

/-- Modelled from the spec: `TunnelMode.init_tenantid` (not under src/)
prepares the tenant's pools; pools here are total maps with per-tenant
counters, so initialization allocates nothing. -/
def init_tenantid (st : VXState) (_tenantid : String) : VXState := st

/-- Modelled from the spec: `TunnelMode.release_ipv4_address` (not under
src/) returns the device slot's IPv4 address to the tenant's free set;
releasing an unassigned slot is a no-op. -/
def release_ipv4_address (st : VXState) (device_id tenantid : String) :
    VXState :=
  match st.mgmtV4 tenantid (.dev device_id) with
  | none => st
  | some _ =>
    { st with
      mgmtV4 := fun tname s =>
        if tname = tenantid ∧ s = SlotKey.dev device_id then none
        else st.mgmtV4 tname s,
      allocCount := fun tname =>
        if tname = tenantid then st.allocCount tname - 1
        else st.allocCount tname }

/-- Modelled from the spec: `TunnelMode.release_ipv6_address` (not under
src/), the IPv6 counterpart. -/
def release_ipv6_address (st : VXState) (device_id tenantid : String) :
    VXState :=
  match st.mgmtV6 tenantid (.dev device_id) with
  | none => st
  | some _ =>
    { st with
      mgmtV6 := fun tname s =>
        if tname = tenantid ∧ s = SlotKey.dev device_id then none
        else st.mgmtV6 tname s,
      allocCount := fun tname =>
        if tname = tenantid then st.allocCount tname - 1
        else st.allocCount tname }

/-- Modelled from the spec: `TunnelMode.num_addresses` (not under src/),
the tenant's count of live device allocations. -/
def num_addresses (st : VXState) (tenantid : String) : Nat :=
  st.allocCount tenantid

/-- Modelled from the spec: `TunnelMode.release_tenantid` (not under
src/) releases the tenant's whole pool: the slot maps are cleared and the
counters reset. -/
def release_tenantid (st : VXState) (tenantid : String) : VXState :=
  { st with
    mgmtV4 := fun tname s =>
      if tname = tenantid then none else st.mgmtV4 tname s,
    mgmtV6 := fun tname s =>
      if tname = tenantid then none else st.mgmtV6 tname s,
    nextV4 := fun tname =>
      if tname = tenantid then 1 else st.nextV4 tname,
    nextV6 := fun tname =>
      if tname = tenantid then 1 else st.nextV6 tname }

/-- Embedding of `TunnelVXLAN.get_device_mgmtipv4`
(`vxlan_utils.py` lines 426-429).  The Python dict-membership guard on
the tenant collapses into the lookup: an absent tenant's map is empty. -/
def get_device_mgmtipv4 (st : VXState) (tenantid : String)
    (device_id : SlotKey) : Option (Nat × Nat) :=
  st.mgmtV4 tenantid device_id

/-- Embedding of `TunnelVXLAN.get_device_mgmtipv6`
(`vxlan_utils.py` lines 420-423). -/
def get_device_mgmtipv6 (st : VXState) (tenantid : String)
    (device_id : SlotKey) : Option (Nat × Nat) :=
  st.mgmtV6 tenantid device_id

/-- Embedding of `TunnelVXLAN.get_device_mgmtip`
(`vxlan_utils.py` lines 432-437).  Line 433 overrides the `tenantid`
argument with the constant string 0 before the lookups. -/
def get_device_mgmtip (st : VXState) (tenantid : String)
    (device_id : String) : Option (Nat × Nat) :=
  let _requested := tenantid
  let tenantid := "0"
  match get_device_mgmtipv4 st tenantid (.dev device_id) with
  | some addr => some addr
  | none => get_device_mgmtipv6 st tenantid (.dev device_id)

/-- The `tunnel_info` fields `TunnelVXLAN.create_tunnel_controller_endpoint`
and `destroy_tunnel_controller_endpoint` read. -/
structure VTunnelInfo where
  device_id : String
  tenantid : String
  device_external_ip : IpAddr
  device_external_port : Nat
  device_vtep_mac : String
  vxlan_port : Nat
deriving DecidableEq, Repr

/-- Embedding of `TunnelVXLAN.create_tunnel_controller_endpoint`
(`vxlan_utils.py` lines 207-310).  Lines 220-221 override the tenant id
from `tunnel_info` with the constant string 0 (the original read is
commented out in the source).  On the first call for the (overridden)
tenant the shared VXLAN interface is created and controller VTEP
addresses are allocated from slot 0; the device VTEP MAC is recorded;
then, per the external address's family, controller and device VTEP
addresses are produced, an invalid family returning INTERNAL_ERROR.
VXLAN-interface, FDB and neighbor manipulations are OS-level calls
through pyroute2 and leave the modelled state untouched.  The
`tunnel_info` writes of lines 303-307 (controller VTEP IP, device VTEP
IP, mask) are returned alongside the status. -/
def create_tunnel_controller_endpoint (st : VXState) (info : VTunnelInfo) :
    Nat × Option (Nat × Nat × Nat) × VXState :=
  let device_id := info.device_id
  let tenantid := "0"
  let st :=
    if tenantid ∈ st.initiated then st
    else
      let st := { st with initiated := tenantid :: st.initiated }
      let st := init_tenantid st tenantid
      let (_a6, st) := get_new_mgmt_ipv6 st .ctrl tenantid
      let (_a4, st) := get_new_mgmt_ipv4 st .ctrl tenantid
      -- create_vxlan, enable_interface, add_address (x2): OS-level calls
      st
  -- self.device_to_mac_addr[device_id] = device_vtep_mac
  let st := { st with
    macs := fun d2 =>
      if d2 = device_id then some info.device_vtep_mac else st.macs d2 }
  match getAddressFamily info.device_external_ip with
  | .inet6 =>
    let (c, st) := get_new_mgmt_ipv6 st .ctrl tenantid
    let (dv, st) := get_new_mgmt_ipv6 st (.dev device_id) tenantid
    -- create_fdb_entry, create_ip_neigh: OS-level calls
    (STATUS_SUCCESS, some (c.1, dv.1, dv.2), st)
  | .inet =>
    let (c, st) := get_new_mgmt_ipv4 st .ctrl tenantid
    let (dv, st) := get_new_mgmt_ipv4 st (.dev device_id) tenantid
    (STATUS_SUCCESS, some (c.1, dv.1, dv.2), st)
  | .other =>
    (STATUS_INTERNAL_ERROR, none, st)

/-- Python exceptions surfacing from the VXLAN teardown path
(`None.split` raises AttributeError). -/
inductive VxErr where
  | attributeError (msg : String)
deriving DecidableEq, Repr

/-- Embedding of `TunnelVXLAN.destroy_tunnel_controller_endpoint`
(`vxlan_utils.py` lines 339-402).  Lines 345-346 override the tenant id
from `tunnel_info` with the constant string 0.  The device's address
lookup feeds a `.split` call, so an absent address raises
AttributeError; the device's addresses are released and, when the
(overridden) tenant has no remaining device allocations, the controller
slot-0 addresses are read back, the shared interface is removed, the
tenant's pool is released and the tenant leaves the `initiated` set.
Neighbor/FDB removals and interface teardown are OS-level calls. -/
def destroy_tunnel_controller_endpoint (st : VXState) (info : VTunnelInfo) :
    Except VxErr Nat × VXState :=
  let device_id := info.device_id
  let tenantid := "0"
  match get_device_mgmtip st tenantid device_id with
  | none => (.error (.attributeError "NoneType has no attribute split"), st)
  | some _dv =>
    -- remove_ip_neigh, remove_fdb_entry: OS-level calls;
    -- get_device_vtep_mac reads device_to_mac_addr
    let _mac := st.macs device_id
    let st := release_ipv4_address st device_id tenantid
    let st := release_ipv6_address st device_id tenantid
    if num_addresses st tenantid = 0 then
      match get_device_mgmtipv4 st tenantid .ctrl,
            get_device_mgmtipv6 st tenantid .ctrl with
      | some _, some _ =>
        -- del_address (x2), remove_interface: OS-level calls
        let st := release_tenantid st tenantid
        let st := { st with initiated := st.initiated.erase tenantid }
        (.ok STATUS_SUCCESS, st)
      | _, _ =>
        (.error (.attributeError "NoneType has no attribute split"), st)
    else
      (.ok STATUS_SUCCESS, st)

/-- A fresh `TunnelVXLAN` state: no tenant initiated, empty maps, both
allocator counters at their first address, no live allocations. -/
def vxEmptyState : VXState :=
  ⟨[], fun _ _ => none, fun _ _ => none, fun _ => none, fun _ => 1,
    fun _ => 1, fun _ => 0⟩

/-- Tunnel info of device d1 owned by tenant t1. -/
def vxInfoT1 : VTunnelInfo := ⟨"d1", "t1", .v4 7, 50000, "02:aa", 4789⟩

/-- Tunnel info naming the same device id under the distinct tenant t2. -/
def vxInfoT2 : VTunnelInfo := ⟨"d1", "t2", .v4 7, 50000, "02:aa", 4789⟩

/-- State after tenant t1's device d1 gets its controller endpoint. -/
def vxAfterCreate : VXState :=
  (create_tunnel_controller_endpoint vxEmptyState vxInfoT1).2.2

/-- State after a subsequent teardown request carrying tenant t2. -/
def vxAfterDestroy : VXState :=
  (destroy_tunnel_controller_endpoint vxAfterCreate vxInfoT2).2

end Pymerang

namespace Pymerang

/-- C3: with the device's reconciliation flag set, `exec_reconciliation`
runs the three northbound steps in order (a later step only after every
earlier one returned 200), invokes the registered rollback action exactly
when some step fails and suppresses it exactly when all three succeed, and
on success clears the reconciliation flag and resets the failure counter;
with the flag unset it only resets the failure counter. -/
theorem claim3_theorem (st : ReconDeviceState) (o : ReconOracle)
    (hreset : o.resetOk = true) :
    (exec_reconciliation st o).steps =
      (if st.reconFlag then
        (if o.prepRes ≠ 200 then [ReconStep.prep]
         else if o.devRes ≠ 200 then [ReconStep.prep, ReconStep.dev]
         else [ReconStep.prep, ReconStep.dev, ReconStep.overlay])
       else []) ∧
    ((exec_reconciliation st o).rollbackInvoked = true ↔
      (st.reconFlag = true ∧
        (o.prepRes ≠ 200 ∨ o.devRes ≠ 200 ∨ o.overlayRes ≠ 200))) ∧
    (st.reconFlag = true → o.prepRes = 200 → o.devRes = 200 →
      o.overlayRes = 200 →
      (exec_reconciliation st o).state.reconFlag = false ∧
      (exec_reconciliation st o).state.reconFailures = 0 ∧
      (exec_reconciliation st o).status = STATUS_SUCCESS) ∧
    (st.reconFlag = false →
      (exec_reconciliation st o).state = { st with reconFailures := 0 } ∧
      (exec_reconciliation st o).steps = [] ∧
      (exec_reconciliation st o).status = STATUS_SUCCESS) := by
  cases hflag : st.reconFlag <;>
    by_cases hp : o.prepRes = 200 <;>
    by_cases hd : o.devRes = 200 <;>
    by_cases ho : o.overlayRes = 200 <;>
    simp [exec_reconciliation, hflag, hp, hd, ho, hreset]

/-- Witness for C3: a concrete run with the flag set and all three steps
returning 200 ends with the flag cleared. -/
theorem claim3_witness :
    (ReconOracle.mk true true true 200 200 200 true).resetOk = true ∧
    (exec_reconciliation ⟨.registered, true, 3⟩
      ⟨true, true, true, 200, 200, 200, true⟩).state.reconFlag = false :=
  ⟨rfl,
    ((claim3_theorem ⟨.registered, true, 3⟩
      ⟨true, true, true, 200, 200, 200, true⟩ rfl).2.2.1
      rfl rfl rfl rfl).1⟩

/-- C4: every `reconciliation_failed` call (with healthy storage writes)
increments the failure counter and sets the state to REBOOT_REQUIRED;
when the incremented counter has reached
MAX_ALLOWED_RECONCILIATION_FAILURES the state after the call is FAILURE,
not REBOOT_REQUIRED — and since the counter only grows, every further
failed attempt leaves the state FAILURE. -/
theorem claim4_theorem (st : ReconDeviceState) (o : ReconOracle)
    (h1 : o.changeStateOk1 = true) (h2 : o.changeStateOk2 = true) :
    (reconciliation_failed st o).2.reconFailures = st.reconFailures + 1 ∧
    (st.reconFailures + 1 < MAX_ALLOWED_RECONCILIATION_FAILURES →
      (reconciliation_failed st o).2.deviceState = .rebootRequired) ∧
    (st.reconFailures + 1 ≥ MAX_ALLOWED_RECONCILIATION_FAILURES →
      (reconciliation_failed st o).2.deviceState = .failure ∧
      (reconciliation_failed st o).2.deviceState ≠ .rebootRequired) := by
  by_cases hge :
      st.reconFailures + 1 ≥ MAX_ALLOWED_RECONCILIATION_FAILURES <;>
    simp [reconciliation_failed, h1, h2, hge]

/-- Witness for C4: with the counter one below the ceiling, a failed
attempt moves the device to the terminal FAILURE state. -/
theorem claim4_witness :
    (ReconOracle.mk true true true 200 200 200 true).changeStateOk1
      = true ∧
    (reconciliation_failed ⟨.working, true, 9999999⟩
      ⟨true, true, true, 200, 200, 200, true⟩).2.deviceState = .failure :=
  ⟨rfl,
    ((claim4_theorem ⟨.working, true, 9999999⟩
      ⟨true, true, true, 200, 200, 200, true⟩ rfl rfl).2.2
      (by decide)).1⟩

/-- C7: `register_device` with valid authentication sets the
reconciliation flag of an already-existing device without re-creating or
overwriting its record (and touches no other record), creates the record
otherwise, and returns SUCCESS with the tenant's configured VXLAN port
(falling back to the default when the configuration lacks one) or
INTERNAL_ERROR when the tenant configuration cannot be read. -/
theorem claim7_theorem (st : RegState) (o : RegOracle)
    (deviceid tenantid : String) (features : List (String × Nat))
    (interfaces : List String) (mgmtip : String)
    (hauth : o.auth = some tenantid) :
    (∀ rec, st.devices (deviceid, tenantid) = some rec →
      (register_device st o deviceid features interfaces
        mgmtip).2.devices (deviceid, tenantid) =
          some { rec with reconFlag := true } ∧
      (∀ k, k ≠ (deviceid, tenantid) →
        (register_device st o deviceid features interfaces
          mgmtip).2.devices k = st.devices k)) ∧
    (st.devices (deviceid, tenantid) = none →
      (register_device st o deviceid features interfaces
        mgmtip).2.devices (deviceid, tenantid) =
          some { features := features, interfaces := interfaces,
                 mgmtip := mgmtip, reconFlag := false }) ∧
    (o.tenantConfig = none →
      (register_device st o deviceid features interfaces mgmtip).1 =
        (STATUS_INTERNAL_ERROR, none, none)) ∧
    (∀ config, o.tenantConfig = some config →
      (register_device st o deviceid features interfaces mgmtip).1 =
        (STATUS_SUCCESS, some (config.vxlanPort.getD DEFAULT_VXLAN_PORT),
          some tenantid)) := by
  refine ⟨?_, ?_, ?_, ?_⟩
  · intro rec hrec
    constructor
    · cases hcfg : o.tenantConfig <;>
        simp [register_device, hauth, hcfg, device_exists, hrec,
          set_device_reconciliation_flag]
    · intro k hk
      cases hcfg : o.tenantConfig <;>
        simp [register_device, hauth, hcfg, device_exists, hrec,
          set_device_reconciliation_flag, hk]
  · intro hnone
    cases hcfg : o.tenantConfig <;>
      simp [register_device, hauth, hcfg, device_exists, hnone,
        storage_register_device]
  · intro hcfg
    simp [register_device, hauth, hcfg]
  · intro config hcfg
    simp [register_device, hauth, hcfg]

/-- Witness for C7: registering an already-known device only raises its
reconciliation flag and the call returns SUCCESS with the configured
port. -/
theorem claim7_witness :
    (RegOracle.mk (some "t1") (some ⟨some 4000⟩)).auth = some "t1" ∧
    RegState.devices
      ⟨fun k => if k = ("d1", "t1") then
        some ⟨[("ssh", 22)], ["eth0"], "fc00::1", false⟩ else none⟩
      ("d1", "t1") = some ⟨[("ssh", 22)], ["eth0"], "fc00::1", false⟩ ∧
    (register_device
      ⟨fun k => if k = ("d1", "t1") then
        some ⟨[("ssh", 22)], ["eth0"], "fc00::1", false⟩ else none⟩
      ⟨some "t1", some ⟨some 4000⟩⟩ "d1" [] [] "10.0.0.9").2.devices
        ("d1", "t1") = some ⟨[("ssh", 22)], ["eth0"], "fc00::1", true⟩ ∧
    (register_device
      ⟨fun k => if k = ("d1", "t1") then
        some ⟨[("ssh", 22)], ["eth0"], "fc00::1", false⟩ else none⟩
      ⟨some "t1", some ⟨some 4000⟩⟩ "d1" [] [] "10.0.0.9").1 =
        (STATUS_SUCCESS, some 4000, some "t1") :=
  ⟨rfl, by decide,
    (((claim7_theorem
      ⟨fun k => if k = ("d1", "t1") then
        some ⟨[("ssh", 22)], ["eth0"], "fc00::1", false⟩ else none⟩
      ⟨some "t1", some ⟨some 4000⟩⟩ "d1" "t1" [] [] "10.0.0.9" rfl).1
      ⟨[("ssh", 22)], ["eth0"], "fc00::1", false⟩ (by decide)).1),
    ((claim7_theorem
      ⟨fun k => if k = ("d1", "t1") then
        some ⟨[("ssh", 22)], ["eth0"], "fc00::1", false⟩ else none⟩
      ⟨some "t1", some ⟨some 4000⟩⟩ "d1" "t1" [] [] "10.0.0.9" rfl).2.2.2
      ⟨some 4000⟩ rfl)⟩

/-- C8: `register_device` with a rejected authentication token returns
UNAUTHORIZED immediately and leaves the storage state untouched. -/
theorem claim8_theorem (st : RegState) (o : RegOracle) (deviceid : String)
    (features : List (String × Nat)) (interfaces : List String)
    (mgmtip : String) (hauth : o.auth = none) :
    register_device st o deviceid features interfaces mgmtip =
      ((STATUS_UNAUTHORIZED, none, none), st) := by
  simp [register_device, hauth]

/-- Witness for C8: a concrete rejected registration returns UNAUTHORIZED
and mutates nothing. -/
theorem claim8_witness :
    (RegOracle.mk none (some ⟨some 4000⟩)).auth = none ∧
    register_device ⟨fun _ => none⟩ ⟨none, some ⟨some 4000⟩⟩ "d9" [] []
      "10.1.1.1" =
      ((STATUS_UNAUTHORIZED, none, none), ⟨fun _ => none⟩) :=
  ⟨rfl,
    claim8_theorem ⟨fun _ => none⟩ ⟨none, some ⟨some 4000⟩⟩ "d9" [] []
      "10.1.1.1" rfl⟩

/-- C1 counterexample: a call in which the old tunnel's teardown succeeds
and the new tunnel's creation fails returns the creation status verbatim,
but the persisted tunnel mode has been cleared — the state is NOT the
same after the failed call as before it, refuting the claim that a failed
`update_mgmt_info` leaves the device's state unchanged. -/
theorem claim1_counterexample :
    (update_mgmt_info
      ⟨some "vxlan", false, .registered, none, fun _ => none,
        fun _ => false, 0⟩
      ⟨fun _ => some true, STATUS_SUCCESS, 5, none, none, none, none,
        none, true, true, false, true⟩
      "d1" "t1" "192.0.2.1" "etherws").result =
      Except.ok (5, none, none, none, none) ∧
    (5 : Nat) ≠ STATUS_SUCCESS ∧
    (update_mgmt_info
      ⟨some "vxlan", false, .registered, none, fun _ => none,
        fun _ => false, 0⟩
      ⟨fun _ => some true, STATUS_SUCCESS, 5, none, none, none, none,
        none, true, true, false, true⟩
      "d1" "t1" "192.0.2.1" "etherws").state.tunnelMode = none ∧
    UpdState.tunnelMode
      ⟨some "vxlan", false, .registered, none, fun _ => none,
        fun _ => false, 0⟩ = some "vxlan" := by
  refine ⟨?_, by decide, ?_, rfl⟩ <;>
    simp [update_mgmt_info, STATUS_SUCCESS]

/-- C1 (amended): a failed `update_mgmt_info` returns the first
non-success status encountered — teardown and creation statuses
propagated verbatim, INTERNAL_ERROR for a failed storage write — and the
persisted device state is unchanged, but earlier steps' effects persist:
a creation failure after a successful teardown leaves the persisted
tunnel mode cleared, and storage-write failures leave the keep-alive
session table already replaced. -/
theorem claim1_theorem (st : UpdState) (o : UpdOracle) (d t m n : String) :
    (∀ old, st.tunnelMode = some old → (o.registry old).isSome →
      o.destroyRes ≠ STATUS_SUCCESS →
      (update_mgmt_info st o d t m n).result =
        .ok (o.destroyRes, none, none, none, none) ∧
      (update_mgmt_info st o d t m n).state = st) ∧
    (st.tunnelMode = none → (o.registry n).isSome →
      o.createRes ≠ STATUS_SUCCESS →
      (update_mgmt_info st o d t m n).result =
        .ok (o.createRes, none, none, none, none) ∧
      (update_mgmt_info st o d t m n).state = st) ∧
    (∀ old, st.tunnelMode = some old → (o.registry old).isSome →
      o.destroyRes = STATUS_SUCCESS → (o.registry n).isSome →
      o.createRes ≠ STATUS_SUCCESS →
      (update_mgmt_info st o d t m n).result =
        .ok (o.createRes, none, none, none, none) ∧
      (update_mgmt_info st o d t m n).state =
        { st with tunnelMode := none }) ∧
    ((∀ old, st.tunnelMode = some old →
        (o.registry old).isSome ∧ o.destroyRes = STATUS_SUCCESS) →
      (o.registry n).isSome → o.createRes = STATUS_SUCCESS →
      o.updateOk = false →
      (update_mgmt_info st o d t m n).result =
        .ok (STATUS_INTERNAL_ERROR, none, none, none, none) ∧
      (update_mgmt_info st o d t m n).state.deviceState = st.deviceState ∧
      (update_mgmt_info st o d t m n).state.connected = st.connected ∧
      (update_mgmt_info st o d t m n).state.mgmtRecord = st.mgmtRecord) ∧
    ((∀ old, st.tunnelMode = some old →
        (o.registry old).isSome ∧ o.destroyRes = STATUS_SUCCESS) →
      (o.registry n).isSome → o.createRes = STATUS_SUCCESS →
      o.updateOk = true → o.setConnectedOk = false →
      (update_mgmt_info st o d t m n).result =
        .ok (STATUS_INTERNAL_ERROR, none, none, none, none) ∧
      (update_mgmt_info st o d t m n).state.deviceState = st.deviceState ∧
      (update_mgmt_info st o d t m n).state.connected = st.connected) ∧
    ((∀ old, st.tunnelMode = some old →
        (o.registry old).isSome ∧ o.destroyRes = STATUS_SUCCESS) →
      (o.registry n).isSome → o.createRes = STATUS_SUCCESS →
      o.updateOk = true → o.setConnectedOk = true →
      o.changeStateOk = false →
      (update_mgmt_info st o d t m n).result =
        .ok (STATUS_INTERNAL_ERROR, none, none, none, none) ∧
      (update_mgmt_info st o d t m n).state.deviceState =
        st.deviceState) := by
  refine ⟨?_, ?_, ?_, ?_, ?_, ?_⟩
  · intro old hold hro hdes
    rcases hR1 : o.registry old with _ | b
    · rw [hR1] at hro; simp at hro
    · simp [update_mgmt_info, hold, hR1, hdes]
  · intro h0 hrn hc
    rcases hR2 : o.registry n with _ | ka
    · rw [hR2] at hrn; simp at hrn
    · simp [update_mgmt_info, h0, hR2, hc]
  · intro old hold hro hdes hrn hc
    rcases hR1 : o.registry old with _ | b
    · rw [hR1] at hro; simp at hro
    · rcases hR2 : o.registry n with _ | ka
      · rw [hR2] at hrn; simp at hrn
      · simp [update_mgmt_info, hold, hR1, hdes, hR2, hc]
  · intro htear hrn hc hu
    rcases hR2 : o.registry n with _ | ka
    · rw [hR2] at hrn; simp at hrn
    · rcases hTM : st.tunnelMode with _ | old
      · rcases hS : st.sessions (t ++ "/" ++ d) with _ | oldEv <;>
          simp [update_mgmt_info, hTM, hR2, hc, hu, hS]
      · obtain ⟨hro, hdes⟩ := htear old hTM
        rcases hR1 : o.registry old with _ | b
        · rw [hR1] at hro; simp at hro
        · rcases hS : st.sessions (t ++ "/" ++ d) with _ | oldEv <;>
            simp [update_mgmt_info, hTM, hR1, hdes, hR2, hc, hu, hS]
  · intro htear hrn hc hu hs
    rcases hR2 : o.registry n with _ | ka
    · rw [hR2] at hrn; simp at hrn
    · rcases hTM : st.tunnelMode with _ | old
      · rcases hS : st.sessions (t ++ "/" ++ d) with _ | oldEv <;>
          simp [update_mgmt_info, hTM, hR2, hc, hu, hs, hS]
      · obtain ⟨hro, hdes⟩ := htear old hTM
        rcases hR1 : o.registry old with _ | b
        · rw [hR1] at hro; simp at hro
        · rcases hS : st.sessions (t ++ "/" ++ d) with _ | oldEv <;>
            simp [update_mgmt_info, hTM, hR1, hdes, hR2, hc, hu, hs, hS]
  · intro htear hrn hc hu hs hch
    rcases hR2 : o.registry n with _ | ka
    · rw [hR2] at hrn; simp at hrn
    · rcases hTM : st.tunnelMode with _ | old
      · rcases hS : st.sessions (t ++ "/" ++ d) with _ | oldEv <;>
          simp [update_mgmt_info, hTM, hR2, hc, hu, hs, hch, hS]
      · obtain ⟨hro, hdes⟩ := htear old hTM
        rcases hR1 : o.registry old with _ | b
        · rw [hR1] at hro; simp at hro
        · rcases hS : st.sessions (t ++ "/" ++ d) with _ | oldEv <;>
            simp [update_mgmt_info, hTM, hR1, hdes, hR2, hc, hu, hs, hch,
              hS]

/-- Witness for C1: a concrete teardown failure propagates status 7
verbatim and leaves the state untouched. -/
theorem claim1_witness :
    UpdState.tunnelMode
      ⟨some "vxlan", false, .working, none, fun _ => none, fun _ => false,
        0⟩ = some "vxlan" ∧
    ((UpdOracle.mk (fun _ => some true) 7 0 none none none none none true
        true false true).registry "vxlan").isSome = true ∧
    (7 : Nat) ≠ STATUS_SUCCESS ∧
    ((update_mgmt_info
      ⟨some "vxlan", false, .working, none, fun _ => none, fun _ => false,
        0⟩
      ⟨fun _ => some true, 7, 0, none, none, none, none, none, true, true,
        false, true⟩
      "d1" "t1" "10.0.0.1" "etherws").result =
        .ok (7, none, none, none, none) ∧
    (update_mgmt_info
      ⟨some "vxlan", false, .working, none, fun _ => none, fun _ => false,
        0⟩
      ⟨fun _ => some true, 7, 0, none, none, none, none, none, true, true,
        false, true⟩
      "d1" "t1" "10.0.0.1" "etherws").state =
        ⟨some "vxlan", false, .working, none, fun _ => none,
          fun _ => false, 0⟩) :=
  ⟨rfl, rfl, by decide,
    (claim1_theorem
      ⟨some "vxlan", false, .working, none, fun _ => none, fun _ => false,
        0⟩
      ⟨fun _ => some true, 7, 0, none, none, none, none, none, true, true,
        false, true⟩
      "d1" "t1" "10.0.0.1" "etherws").1 "vxlan" rfl rfl (by decide)⟩

/-- C5 counterexample: a successful `update_mgmt_info` that replaces a
prior keep-alive session signals the old stop event and registers the new
one with NO await of the prior session's termination anywhere in between
(no await action occurs at all), refuting the claim that the replacement
awaits termination before registering. -/
theorem claim5_counterexample :
    (update_mgmt_info
      ⟨none, false, .working, none,
        (fun k => if k = "t1/d1" then some 0 else none), fun _ => false,
        1⟩
      ⟨fun _ => some true, 0, 0, none, none, none, none, none, true, true,
        false, true⟩
      "d1" "t1" "10.0.0.1" "vxlan").result =
      Except.ok (STATUS_SUCCESS, none, none, none, none) ∧
    (update_mgmt_info
      ⟨none, false, .working, none,
        (fun k => if k = "t1/d1" then some 0 else none), fun _ => false,
        1⟩
      ⟨fun _ => some true, 0, 0, none, none, none, none, none, true, true,
        false, true⟩
      "d1" "t1" "10.0.0.1" "vxlan").trace.filter isSessionAct =
      [.signalStop 0, .registerSession "t1/d1" 1] ∧
    (update_mgmt_info
      ⟨none, false, .working, none,
        (fun k => if k = "t1/d1" then some 0 else none), fun _ => false,
        1⟩
      ⟨fun _ => some true, 0, 0, none, none, none, none, none, true, true,
        false, true⟩
      "d1" "t1" "10.0.0.1" "vxlan").trace.all
        (fun a => !isAwaitAct a) = true := by
  refine ⟨?_, ?_, ?_⟩ <;> decide

/-- C5 (amended): every `update_mgmt_info` call that reaches the
session-replacement step (the tunnel endpoint was created successfully)
while a prior session is registered under `tenantid/deviceid` first
signals the prior session's stop event and then immediately registers the
new session's stop event under the key — the session table ends with
exactly the new event under the key — but it never awaits the prior
session thread's termination. -/
theorem claim5_theorem (st : UpdState) (o : UpdOracle) (d t m n : String)
    (oldEv : Nat)
    (hprior : st.sessions (t ++ "/" ++ d) = some oldEv)
    (htear : ∀ old, st.tunnelMode = some old →
      (o.registry old).isSome ∧ o.destroyRes = STATUS_SUCCESS)
    (hrn : (o.registry n).isSome)
    (hc : o.createRes = STATUS_SUCCESS) :
    (update_mgmt_info st o d t m n).trace.filter isSessionAct =
      [.signalStop oldEv,
       .registerSession (t ++ "/" ++ d) st.nextEvent] ∧
    (update_mgmt_info st o d t m n).trace.all
      (fun a => !isAwaitAct a) = true ∧
    (update_mgmt_info st o d t m n).state.sessions (t ++ "/" ++ d) =
      some st.nextEvent ∧
    (update_mgmt_info st o d t m n).state.signalled oldEv = true := by
  rcases hR2 : o.registry n with _ | ka
  · rw [hR2] at hrn; simp at hrn
  · rcases hTM : st.tunnelMode with _ | old
    · cases ka <;> cases hU : o.updateOk <;>
        cases hS : o.setConnectedOk <;>
        cases hSt : o.stampNodePresent <;>
        cases hCh : o.changeStateOk <;>
        simp [update_mgmt_info, hTM, hR2, hc, hprior, hU, hS, hSt, hCh,
          isSessionAct, isAwaitAct]
    · obtain ⟨hro, hdes⟩ := htear old hTM
      rcases hR1 : o.registry old with _ | b
      · rw [hR1] at hro; simp at hro
      · cases ka <;> cases hU : o.updateOk <;>
          cases hS : o.setConnectedOk <;>
          cases hSt : o.stampNodePresent <;>
          cases hCh : o.changeStateOk <;>
          simp [update_mgmt_info, hTM, hR1, hdes, hR2, hc, hprior, hU, hS,
            hSt, hCh, isSessionAct, isAwaitAct]

/-- Witness for C5: a concrete replacement run signals event 0, registers
event 1, and never awaits. -/
theorem claim5_witness :
    UpdState.sessions
      ⟨none, true, .working, none,
        (fun k => if k = "t9/d9" then some 0 else none), fun _ => false,
        1⟩ ("t9" ++ "/" ++ "d9") = some 0 ∧
    (UpdOracle.mk (fun _ => some false) 0 0 none none none none none true
      true false true).createRes = STATUS_SUCCESS ∧
    (update_mgmt_info
      ⟨none, true, .working, none,
        (fun k => if k = "t9/d9" then some 0 else none), fun _ => false,
        1⟩
      ⟨fun _ => some false, 0, 0, none, none, none, none, none, true,
        true, false, true⟩
      "d9" "t9" "10.0.0.2" "etherws").trace.all
        (fun a => !isAwaitAct a) = true :=
  ⟨by decide, rfl,
    (claim5_theorem
      ⟨none, true, .working, none,
        (fun k => if k = "t9/d9" then some 0 else none), fun _ => false,
        1⟩
      ⟨fun _ => some false, 0, 0, none, none, none, none, none, true,
        true, false, true⟩
      "d9" "t9" "10.0.0.2" "etherws" 0 (by decide)
      (fun old h => Option.noConfusion h) rfl rfl).2.1⟩

/-- C6 counterexample: with a tunnel-mode name absent from the registry,
`update_mgmt_info` does not return any status to the caller — it raises
an uncaught KeyError — refuting the claim that an invalid-argument /
INTERNAL_ERROR-class status is returned (though indeed no tunnel creation
is performed). -/
theorem claim6_counterexample :
    (update_mgmt_info
      ⟨none, false, .registered, none, fun _ => none, fun _ => false, 0⟩
      ⟨fun _ => none, 0, 0, none, none, none, none, none, true, true,
        false, true⟩
      "d1" "t1" "10.0.0.1" "badmode").result =
      Except.error (.keyError "badmode") ∧
    updReturned
      (update_mgmt_info
        ⟨none, false, .registered, none, fun _ => none, fun _ => false,
          0⟩
        ⟨fun _ => none, 0, 0, none, none, none, none, none, true, true,
          false, true⟩
        "d1" "t1" "10.0.0.1" "badmode").result = false ∧
    (update_mgmt_info
      ⟨none, false, .registered, none, fun _ => none, fun _ => false, 0⟩
      ⟨fun _ => none, 0, 0, none, none, none, none, none, true, true,
        false, true⟩
      "d1" "t1" "10.0.0.1" "badmode").trace.all
        (fun a => !isCreateAct a) = true := by
  refine ⟨?_, ?_, ?_⟩ <;> decide

/-- C6 (amended): calling `update_mgmt_info` with a tunnel-mode name that
is not a key of the registry fails by raising an uncaught KeyError — no
status is returned to the caller through the normal reply path — the call
neither succeeds nor diverges, and it performs no tunnel creation. -/
theorem claim6_theorem (st : UpdState) (o : UpdOracle) (d t m n : String)
    (htear : ∀ old, st.tunnelMode = some old →
      (o.registry old).isSome ∧ o.destroyRes = STATUS_SUCCESS)
    (hrn : o.registry n = none) :
    (update_mgmt_info st o d t m n).result =
      .error (.keyError n) ∧
    updReturned (update_mgmt_info st o d t m n).result = false ∧
    (update_mgmt_info st o d t m n).trace.all
      (fun a => !isCreateAct a) = true := by
  rcases hTM : st.tunnelMode with _ | old
  · simp [update_mgmt_info, hTM, hrn, updReturned, isCreateAct]
  · obtain ⟨hro, hdes⟩ := htear old hTM
    rcases hR1 : o.registry old with _ | b
    · rw [hR1] at hro; simp at hro
    · simp [update_mgmt_info, hTM, hR1, hdes, hrn, updReturned,
        isCreateAct]

/-- Witness for C6: an unknown mode name raises KeyError even when an old
tunnel was torn down first. -/
theorem claim6_witness :
    (UpdOracle.mk (fun k => if k = "vxlan" then some true else none) 0 0
      none none none none none true true false true).registry "nomode" =
      none ∧
    (update_mgmt_info
      ⟨some "vxlan", true, .working, none, fun _ => none, fun _ => false,
        0⟩
      ⟨fun k => if k = "vxlan" then some true else none, 0, 0, none, none,
        none, none, none, true, true, false, true⟩
      "d1" "t1" "10.0.0.1" "nomode").result =
      Except.error (.keyError "nomode") :=
  ⟨by decide,
    (claim6_theorem
      ⟨some "vxlan", true, .working, none, fun _ => none, fun _ => false,
        0⟩
      ⟨fun k => if k = "vxlan" then some true else none, 0, 0, none, none,
        none, none, none, true, true, false, true⟩
      "d1" "t1" "10.0.0.1" "nomode"
      (by intro old h; cases h; exact ⟨by decide, rfl⟩)
      (by decide)).1⟩

/-- C10: when no keep-alive session entry exists under
`tenantid/deviceid`, `device_disconnected` (with the earlier steps
succeeding) raises an uncaught KeyError from the unconditional deletion
and never returns SUCCESS, even though the connected flag was already
cleared, the tunnel torn down and the management info cleared. -/
theorem claim10_theorem (st : UpdState) (o : DisOracle) (d t : String)
    (hdev : o.devicePresent = true)
    (hconn : o.setConnectedOk = true)
    (htear : ∀ tm, st.tunnelMode = some tm →
      (o.registry tm).isSome ∧ o.destroyRes = STATUS_SUCCESS)
    (hsess : st.sessions (t ++ "/" ++ d) = none) :
    (device_disconnected st o d t).result =
      .error (.keyError (t ++ "/" ++ d)) ∧
    (device_disconnected st o d t).result ≠ .ok STATUS_SUCCESS ∧
    (device_disconnected st o d t).state.connected = false ∧
    (device_disconnected st o d t).state.tunnelMode = none ∧
    (device_disconnected st o d t).state.mgmtRecord = none := by
  rcases hTM : st.tunnelMode with _ | tm
  · simp [device_disconnected, hdev, hconn, hTM, hsess]
  · obtain ⟨hro, hdes⟩ := htear tm hTM
    rcases hR1 : o.registry tm with _ | b
    · rw [hR1] at hro; simp at hro
    · simp [device_disconnected, hdev, hconn, hTM, hR1, hdes, hsess]

/-- Witness for C10: a disconnection report for a device with no
registered keep-alive session ends in KeyError with the flag cleared and
the tunnel torn down. -/
theorem claim10_witness :
    UpdState.sessions
      ⟨some "vxlan", true, .working, some ⟨"10.0.0.3", "vxlan"⟩,
        fun _ => none, fun _ => false, 0⟩ ("t1" ++ "/" ++ "d1") = none ∧
    ((device_disconnected
      ⟨some "vxlan", true, .working, some ⟨"10.0.0.3", "vxlan"⟩,
        fun _ => none, fun _ => false, 0⟩
      ⟨true, fun _ => some true, 0, true⟩ "d1" "t1").result =
      Except.error (.keyError ("t1" ++ "/" ++ "d1")) ∧
    (device_disconnected
      ⟨some "vxlan", true, .working, some ⟨"10.0.0.3", "vxlan"⟩,
        fun _ => none, fun _ => false, 0⟩
      ⟨true, fun _ => some true, 0, true⟩ "d1" "t1").result ≠
      .ok STATUS_SUCCESS ∧
    (device_disconnected
      ⟨some "vxlan", true, .working, some ⟨"10.0.0.3", "vxlan"⟩,
        fun _ => none, fun _ => false, 0⟩
      ⟨true, fun _ => some true, 0, true⟩ "d1" "t1").state.connected =
      false ∧
    (device_disconnected
      ⟨some "vxlan", true, .working, some ⟨"10.0.0.3", "vxlan"⟩,
        fun _ => none, fun _ => false, 0⟩
      ⟨true, fun _ => some true, 0, true⟩ "d1" "t1").state.tunnelMode =
      none ∧
    (device_disconnected
      ⟨some "vxlan", true, .working, some ⟨"10.0.0.3", "vxlan"⟩,
        fun _ => none, fun _ => false, 0⟩
      ⟨true, fun _ => some true, 0, true⟩ "d1" "t1").state.mgmtRecord =
      none) :=
  ⟨rfl,
    claim10_theorem
      ⟨some "vxlan", true, .working, some ⟨"10.0.0.3", "vxlan"⟩,
        fun _ => none, fun _ => false, 0⟩
      ⟨true, fun _ => some true, 0, true⟩ "d1" "t1" rfl rfl
      (by intro tm h; cases h; exact ⟨rfl, rfl⟩) rfl⟩

/-- C2: the code violates tenant isolation.  Because
`create_tunnel_controller_endpoint`, `destroy_tunnel_controller_endpoint`
and `get_device_mgmtip` override the tenant id with the constant 0
(`vxlan_utils.py` lines 221, 346, 433; the reads of
`tunnel_info.tenantid` are commented out at lines 220 and 345), an
allocation performed for tenant t1's device lands in the shared pool 0 —
not in t1's pool — is observed verbatim by a lookup carrying tenant t2,
and a teardown request carrying tenant t2 releases t1's allocation and
the shared network object.  This contradicts the spec's per-tenant
isolation requirement (section 4.3), which the commented-out tenant reads
show to be the code's own intent. -/
theorem claim2_theorem :
    (create_tunnel_controller_endpoint vxEmptyState vxInfoT1).1 =
      STATUS_SUCCESS ∧
    get_device_mgmtip vxAfterCreate "t2" "d1" = some (2, 16) ∧
    get_device_mgmtip vxAfterCreate "t1" "d1" =
      get_device_mgmtip vxAfterCreate "t2" "d1" ∧
    vxAfterCreate.mgmtV4 "t1" (.dev "d1") = none ∧
    vxAfterCreate.mgmtV4 "0" (.dev "d1") = some (2, 16) ∧
    (destroy_tunnel_controller_endpoint vxAfterCreate vxInfoT2).1 =
      .ok STATUS_SUCCESS ∧
    get_device_mgmtip vxAfterDestroy "t1" "d1" = none ∧
    vxAfterDestroy.initiated = [] := by
  refine ⟨?_, ?_, ?_, ?_, ?_, ?_, ?_, ?_⟩ <;> decide

/-- C9: the VXLAN mode supports exactly {Open, FullCone, RestrictedCone,
RestrictedPort} (so Symmetric is never VXLAN-compatible), and the
Ethernet-over-websocket mode supports every NAT classification except
Blocked (so Open is compatible with both modes). -/
theorem claim9_theorem :
    (∀ t : NatType, t ∈ vxlanSupportedNatTypes ↔
      (t = .open_ ∨ t = .fullCone ∨ t = .restrictedCone ∨
        t = .restrictedPort)) ∧
    (∀ t : NatType, t ∈ etherwsSupportedNatTypes ↔
      (t ∈ allNatTypes ∧ t ≠ .blocked)) ∧
    NatType.symmetric ∉ vxlanSupportedNatTypes ∧
    NatType.open_ ∈ vxlanSupportedNatTypes ∧
    NatType.open_ ∈ etherwsSupportedNatTypes := by
  refine ⟨?_, ?_, ?_, ?_, ?_⟩ <;> first
    | (intro t; cases t <;> decide)
    | decide

end Pymerang
